import Mathlib

/-!
Shallow embedding of the job-matching decision engine
(`src/modules/matcher.py`, class `JobMatcher`): configuration loading,
exclusion check, skill extraction, title scoring, skill scoring, weighted
total and routing.  Strings model Python `str` restricted to the ASCII
texts the engine handles; `pyIn` models Python's substring test
`needle in hay`; Python `set`s of strings are modelled as duplicate-free
lists built with `List.insert`.
-/

namespace JobAutomation

/-- Python `str.lower()` on ASCII text: character-wise lowercase. -/
def lower (s : String) : String := ⟨s.data.map Char.toLower⟩

/-- Containment of `needle` as a contiguous substring, testing every suffix
of the haystack; the empty needle is contained in every string, matching
Python's `"" in s == True`. -/
def containsSub (needle : List Char) : List Char → Bool
  | [] => needle.isEmpty
  | c :: t => needle.isPrefixOf (c :: t) || containsSub needle t

/-- Python's substring test `needle in hay`. -/
def pyIn (needle hay : String) : Bool := containsSub needle.data hay.data

/-- The fields of the parsed JSON configuration that the matcher reads:
`skills`, `target_roles`, `exclusion_keywords` (each defaulting to the
empty list when the key is missing, as `config.get(key, [])` does) and the
two entries of the `matching` sub-dictionary, `none` when the key is
absent. -/
structure Config where
  skills : List String
  target_roles : List String
  exclusion_keywords : List String
  matching_auto : Option Int
  matching_review : Option Int

/-- State of a constructed `JobMatcher`: the lower-cased profile lists and
the raw threshold entries (`self.thresholds`). -/
structure JobMatcher where
  my_skills : List String
  target_roles : List String
  exclusions : List String
  thresholds_auto : Option Int
  thresholds_review : Option Int

/-- The body of `JobMatcher.__init__` after the JSON has been parsed:
lower-case the three profile lists and keep the `matching` thresholds
as-is.  No validation of any kind is performed (the Python `set(...)` on
skills only removes duplicates, which leaves every substring test and
membership test unchanged). -/
def mkJobMatcher (cfg : Config) : JobMatcher :=
  { my_skills := cfg.skills.map lower
    target_roles := cfg.target_roles.map lower
    exclusions := cfg.exclusion_keywords.map lower
    thresholds_auto := cfg.matching_auto
    thresholds_review := cfg.matching_review }

/-- The static synonym vocabulary `self.skill_synonyms`, verbatim. -/
def skill_synonyms : List (String × List String) :=
  [ ("sql", ["sql", "sqlite", "mysql", "t-sql", "postgresql", "oracle", "database", "queries", "query"]),
    ("excel", ["excel", "ms excel", "microsoft excel", "pivot tables", "vlookup", "data validation", "spreadsheet"]),
    ("tableau", ["tableau", "tableau desktop", "tableau server", "tableau dashboard", "visualization", "viz"]),
    ("power bi", ["power bi", "powerbi", "power-bi", "pbi", "msbi", "microsoft bi"]),
    ("r", ["r", "r programming", "rstudio", "r, ", "dplyr", "ggplot2", "tidyverse", "shiny"]),
    ("python", ["python", "python3", "pandas", "numpy", "scipy", "matplotlib", "seaborn"]),
    ("data analysis", ["data analysis", "data analytics", "analytics", "analyze data", "data analyst"]),
    ("statistical analysis", ["statistical", "statistics", "stats", "anova", "regression", "hypothesis testing"]),
    ("data cleaning", ["data cleaning", "data preprocessing", "preprocessing", "cleaning", "wrangling"]),
    ("eda", ["eda", "exploratory data analysis", "exploratory"]),
    ("data visualization", ["data visualization", "visualization", "visualize", "charts", "graphs", "dashboards"]),
    ("database", ["database", "db", "sql", "queries", "data modeling", "schema"]),
    ("reporting", ["reporting", "reports", "mis", "mis reporting", "kpi", "dashboard"]),
    ("machine learning", ["machine learning", "ml", "predictive", "predictive analytics", "modeling"]),
    ("customer analysis", ["customer", "customer segmentation", "behavioral", "customer insights", "churn"]),
    ("bi", ["bi", "business intelligence", "intelligence", "analytics"]),
    ("operations", ["operations", "operational", "supply chain"]),
    ("marketing", ["marketing", "market", "customer journey", "segmentation"]),
    ("risk", ["risk", "credit risk", "risk assessment", "fraud"]),
    ("git", ["git", "version control", "github", "bitbucket"]),
    ("office", ["microsoft office", "ms office", "google sheets", "sheets", "word", "powerpoint"]) ]

/-- The static group table `self.skill_groups`, verbatim. -/
def skill_groups : List (String × List String) :=
  [ ("core_data", ["sql", "python", "r", "excel"]),
    ("visualization", ["tableau", "power bi", "data visualization"]),
    ("analysis", ["data analysis", "statistical analysis", "predictive analytics"]),
    ("tools", ["git", "microsoft office", "google sheets"]) ]

/-- Method `should_exclude`: lower-case `"title description"` and return the
first configured exclusion keyword contained in it, if any. -/
def should_exclude (m : JobMatcher) (job_title : String) (job_description : String) :
    Bool × Option String :=
  let text := lower (job_title ++ " " ++ job_description)
  match m.exclusions.find? (fun keyword => pyIn keyword text) with
  | some keyword => (true, some keyword)
  | none => (false, none)

/-- Method `_extract_skills`: union (as a set, modelled by `List.insert`
into a duplicate-free list) of the direct profile-skill hits, the canonical
skill of every synonym hit, and the name of every group one of whose
member phrases occurs in the text. -/
def extract_skills (m : JobMatcher) (text : String) : List String :=
  let text_lower := lower text
  let found1 := m.my_skills.foldl
    (fun acc skill => if pyIn skill text_lower then acc.insert skill else acc) []
  let found2 := skill_synonyms.foldl
    (fun acc p => if p.2.any (fun synonym => pyIn synonym text_lower) then acc.insert p.1 else acc)
    found1
  skill_groups.foldl
    (fun acc p => if p.2.any (fun skill => pyIn skill text_lower) then acc.insert p.1 else acc)
    found2

/-- The fixed title keyword table of `calculate_score` (step 2), verbatim. -/
def title_keywords : List (String × Nat) :=
  [ ("junior data analyst", 100),
    ("jr. data analyst", 100),
    ("jr data analyst", 100),
    ("data analyst", 95),
    ("data analytics", 90),
    ("mis analyst", 95),
    ("mis executive", 90),
    ("management information system", 90),
    ("business analyst", 85),
    ("junior business analyst", 90),
    ("business analytics", 80),
    ("financial data analyst", 90),
    ("risk analyst", 85),
    ("retail analytics", 85),
    ("ecommerce analytics", 85),
    ("telecom analytics", 85),
    ("customer churn analyst", 85),
    ("aviation data analyst", 90),
    ("automotive analytics", 90),
    ("tableau developer", 90),
    ("power bi developer", 90),
    ("bi developer", 90),
    ("etl developer", 85),
    ("data visualization specialist", 85),
    ("operations analyst", 80),
    ("marketing analytics", 80),
    ("product analyst", 80),
    ("credit risk analyst", 80),
    ("customer insights", 80),
    ("supply chain analytics", 80),
    ("insights analyst", 80),
    ("analytics engineer", 85),
    ("database administrator", 75),
    ("data scientist", 75) ]

/-- Steps 1 and 2 of title scoring: 100 on any target-role hit (the
Python loop breaks, so any hit gives 100); only when the score is still 0
scan the keyword table keeping the running maximum over matching
phrases. -/
def titleScoreBase (m : JobMatcher) (job_title_lower : String) : Nat :=
  let ts := if m.target_roles.any (fun role => pyIn role job_title_lower) then 100 else 0
  if ts == 0 then
    title_keywords.foldl
      (fun acc p => if pyIn p.1 job_title_lower then max acc p.2 else acc) 0
  else ts

/-- Full title score: base plus the junior (+10) and analyst (+5) bonuses,
each applied through `min 100`. -/
def titleScore (m : JobMatcher) (job_title_lower : String) : Nat :=
  let ts := titleScoreBase m job_title_lower
  let ts := if pyIn "junior" job_title_lower then min 100 (ts + 10) else ts
  if pyIn "analyst" job_title_lower then min 100 (ts + 5) else ts

/-- Title scoring restated in the specification's wording: the base is 100
when some target-role phrase occurs in the title, otherwise the maximum of
the table values over all phrases present (0 when none match); then the
junior and analyst bonuses, each capped at 100, applied regardless of how
the base was obtained. -/
def titleScoreSpec (m : JobMatcher) (job_title_lower : String) : Nat :=
  let base :=
    if m.target_roles.any (fun role => pyIn role job_title_lower) then 100
    else ((title_keywords.filter (fun p => pyIn p.1 job_title_lower)).map Prod.snd).foldl max 0
  let b1 := if pyIn "junior" job_title_lower then min 100 (base + 10) else base
  if pyIn "analyst" job_title_lower then min 100 (b1 + 5) else b1

/-- The step function on the number of distinct matched skills/groups. -/
def stepScore (skill_count : Nat) : Nat :=
  if skill_count ≥ 10 then 100
  else if skill_count ≥ 8 then 95
  else if skill_count ≥ 6 then 90
  else if skill_count ≥ 5 then 85
  else if skill_count ≥ 4 then 80
  else if skill_count ≥ 3 then 75
  else if skill_count ≥ 2 then 70
  else if skill_count ≥ 1 then 60
  else 50

/-- Group bonus: +5 for every skill group that has at least one member in
the found-skill set (set membership, not substring). -/
def groupBonus (found_skills : List String) : Nat :=
  skill_groups.foldl
    (fun acc p => if p.2.any (fun skill => found_skills.contains skill) then acc + 5 else acc) 0

/-- Skill score as the code computes it:
`skill_score = min(100, step + group_bonus)` (line 240 of matcher.py). -/
def skillScore (found_skills : List String) : Nat :=
  min 100 (stepScore found_skills.length + groupBonus found_skills)

/-- Skill score as the specification's words describe it: step value plus
5 for every group with at least one matched member, with NO cap before the
final total clamp.  Kept separate from `skillScore` to compare the claim
with the code. -/
def skillScoreClaim (found_skills : List String) : Nat :=
  stepScore found_skills.length
    + 5 * (skill_groups.countP (fun p => p.2.any (fun skill => found_skills.contains skill)))

/-- The weighted total `int(title_score * 0.5 + skill_score * 0.5)`.  For
natural arguments the float expression is exact (halves of small integers
are representable) and Python's `int` truncates the non-negative value
toward zero, which is floor division by 2; `pyIntTrunc_weighted` below
proves this reading. -/
def weightedTotal (title_score skill_score : Nat) : Nat :=
  (title_score + skill_score) / 2

/-- Python `int()` on an exact rational value: truncation toward zero. -/
def pyIntTrunc (q : ℚ) : ℤ := Int.tdiv q.num q.den

/-- The fixed core-tool list of the tool-diversity bonus. -/
def coreTools : List String := ["sql", "python", "r", "tableau", "power bi", "excel"]

/-- Step 6 of `calculate_score`: route the total against the two
thresholds. -/
def recommendation (auto_threshold review_threshold : Int) (total_score : Nat) : String :=
  if (total_score : Int) ≥ auto_threshold then "auto_apply"
  else if (total_score : Int) ≥ review_threshold then "review"
  else "skip"

/-- Method `calculate_score`: returns
`(total_score, matched_skills, recommendation, reason)`. -/
def calculate_score (m : JobMatcher) (job_title : String) (job_description : String) :
    Nat × List String × String × Option String :=
  let job_title_lower := lower job_title
  let job_desc_lower := lower job_description
  let combined_text := job_title_lower ++ " " ++ job_desc_lower
  let ex := should_exclude m job_title job_description
  if ex.1 then
    (0, [], "exclude", some ("Contains: " ++ ex.2.getD ""))
  else
    let title_score := titleScore m job_title_lower
    let found_skills := extract_skills m combined_text
    let matched_skills := found_skills
    let skill_score := skillScore found_skills
    let total0 := weightedTotal title_score skill_score
    let total1 :=
      if pyIn "junior" job_title_lower || pyIn "entry" job_desc_lower then
        min 100 (total0 + 5)
      else total0
    let tool_diversity := ((matched_skills.filter (fun s => coreTools.contains s)).dedup).length
    let total2 := if tool_diversity ≥ 3 then min 100 (total1 + 5) else total1
    let auto_threshold := m.thresholds_auto.getD 70
    let review_threshold := m.thresholds_review.getD 60
    (total2, matched_skills, recommendation auto_threshold review_threshold total2, none)

/-- A configuration with every list empty and no thresholds configured. -/
def emptyConfig : Config :=
  { skills := [], target_roles := [], exclusion_keywords := [],
    matching_auto := none, matching_review := none }

/-- The matcher built from the empty configuration. -/
def emptyMatcher : JobMatcher := mkJobMatcher emptyConfig

/-- A profile that both targets "data analyst" and excludes
"customer service", to exhibit exclusion dominating a role match. -/
def exclusionMatcher : JobMatcher :=
  mkJobMatcher
    { skills := [], target_roles := ["data analyst"],
      exclusion_keywords := ["customer service"],
      matching_auto := none, matching_review := none }

/-- A configuration whose thresholds are nonsensical:
`auto_apply_threshold = 10 < 90 = review_threshold`. -/
def badConfig : Config :=
  { skills := [], target_roles := [], exclusion_keywords := [],
    matching_auto := some 10, matching_review := some 90 }

/-! Helper lemmas shared between the claim theorems. -/

theorem stepScore_le_100 (n : Nat) : stepScore n ≤ 100 := by
  unfold stepScore
  repeat' split
  all_goals omega

theorem le_stepScore (n : Nat) : 50 ≤ stepScore n := by
  unfold stepScore
  repeat' split
  all_goals omega

set_option maxHeartbeats 1600000 in
theorem stepScore_mono {m n : Nat} (h : m ≤ n) : stepScore m ≤ stepScore n := by
  unfold stepScore
  split_ifs <;> omega

theorem foldl_guarded_max_eq_filter (P : String × Nat → Bool) :
    ∀ (l : List (String × Nat)) (a : Nat),
      l.foldl (fun acc p => if P p then max acc p.2 else acc) a
        = ((l.filter P).map Prod.snd).foldl max a := by
  intro l
  induction l with
  | nil => intro a; rfl
  | cons p t ih =>
    intro a
    by_cases h : P p = true
    · simp only [List.foldl_cons, List.filter_cons, h, if_pos, List.map_cons]
      exact ih (max a p.2)
    · simp only [List.foldl_cons, List.filter_cons, h]
      simp only [Bool.false_eq_true, if_false]
      exact ih a

theorem foldl_guarded_max_le (P : String × Nat → Bool) :
    ∀ (l : List (String × Nat)) (a : Nat), a ≤ 100 → (∀ p ∈ l, p.2 ≤ 100) →
      l.foldl (fun acc p => if P p then max acc p.2 else acc) a ≤ 100 := by
  intro l
  induction l with
  | nil => intro a ha _; exact ha
  | cons p t ih =>
    intro a ha hl
    simp only [List.foldl_cons]
    by_cases h : P p = true
    · simp only [h, if_pos]
      refine ih (max a p.2) (max_le ha (hl p (List.mem_cons_self p t))) ?_
      intro q hq; exact hl q (List.mem_cons_of_mem p hq)
    · simp only [h, Bool.false_eq_true, if_false]
      refine ih a ha ?_
      intro q hq; exact hl q (List.mem_cons_of_mem p hq)

theorem foldl_bonus_mono (found1 found2 : List String)
    (h : ∀ s, found1.contains s = true → found2.contains s = true) :
    ∀ (gs : List (String × List String)) (a1 a2 : Nat), a1 ≤ a2 →
      gs.foldl (fun acc p => if p.2.any (fun skill => found1.contains skill) then acc + 5 else acc) a1
        ≤ gs.foldl (fun acc p => if p.2.any (fun skill => found2.contains skill) then acc + 5 else acc) a2 := by
  intro gs
  induction gs with
  | nil => intro a1 a2 h12; exact h12
  | cons g t ih =>
    intro a1 a2 h12
    simp only [List.foldl_cons]
    by_cases h1 : g.2.any (fun skill => found1.contains skill) = true
    · have h2 : g.2.any (fun skill => found2.contains skill) = true := by
        rcases List.any_eq_true.mp h1 with ⟨s, hs, hc⟩
        exact List.any_eq_true.mpr ⟨s, hs, h s hc⟩
      simp only [h1, h2, if_pos]
      exact ih (a1 + 5) (a2 + 5) (by omega)
    · simp only [h1, Bool.false_eq_true, if_false]
      by_cases h2 : g.2.any (fun skill => found2.contains skill) = true
      · simp only [h2, if_pos]
        exact ih a1 (a2 + 5) (by omega)
      · simp only [h2, Bool.false_eq_true, if_false]
        exact ih a1 a2 h12

theorem foldl_bonus_eq_countP (P : String × List String → Bool) :
    ∀ (gs : List (String × List String)) (a : Nat),
      gs.foldl (fun acc p => if P p then acc + 5 else acc) a = a + 5 * gs.countP P := by
  intro gs
  induction gs with
  | nil => intro a; simp
  | cons g t ih =>
    intro a
    by_cases h : P g = true
    · simp only [List.foldl_cons, h, if_pos, List.countP_cons, if_true]
      rw [ih]
      omega
    · simp only [List.foldl_cons, h, Bool.false_eq_true, if_false, List.countP_cons]
      rw [ih]
      omega

theorem titleScoreBase_le_100 (m : JobMatcher) (t : String) : titleScoreBase m t ≤ 100 := by
  unfold titleScoreBase
  by_cases hrole : m.target_roles.any (fun role => pyIn role t) = true
  · simp [hrole]
  · simp only [hrole, Bool.false_eq_true, if_false]
    simp only [beq_self_eq_true, if_pos]
    exact foldl_guarded_max_le _ title_keywords 0 (by omega) (by decide)

theorem titleScore_le_100 (m : JobMatcher) (t : String) : titleScore m t ≤ 100 := by
  unfold titleScore
  have hb := titleScoreBase_le_100 m t
  by_cases hj : pyIn "junior" t = true <;> by_cases ha : pyIn "analyst" t = true <;>
    simp only [hj, ha, Bool.false_eq_true, if_pos, if_false] <;> omega

theorem skillScore_le_100 (found : List String) : skillScore found ≤ 100 := by
  unfold skillScore
  omega

theorem le_skillScore (found : List String) : 50 ≤ skillScore found := by
  unfold skillScore
  have := le_stepScore found.length
  omega

theorem groupBonus_mono (found1 found2 : List String)
    (h : ∀ s, found1.contains s = true → found2.contains s = true) :
    groupBonus found1 ≤ groupBonus found2 :=
  foldl_bonus_mono found1 found2 h skill_groups 0 0 (Nat.le_refl 0)

/-! Claim theorems. -/

/-- C6: title scoring as implemented coincides with the specification's
description: a target-role hit gives base 100 without consulting the
keyword table, otherwise the base is the maximum table value over all
phrases present in the title (0 when none match), and then the junior
(+10) and analyst (+5) bonuses are added, each capped at 100, regardless
of how the base was obtained. -/
theorem title_scoring_matches_spec (m : JobMatcher) (t : String) :
    titleScore m t = titleScoreSpec m t := by
  unfold titleScore titleScoreSpec titleScoreBase
  by_cases hrole : m.target_roles.any (fun role => pyIn role t) = true
  · simp [hrole]
  · simp only [hrole, Bool.false_eq_true, if_false, beq_self_eq_true, if_pos]
    rw [foldl_guarded_max_eq_filter]

/-- C4 counterexample: the claim asserts the skill score is the step value
plus the group bonus, uncapped before the final total clamp.  On the text
below the code extracts 13 skills/groups (step value 100) with all four
groups represented (bonus 20); the claimed uncapped value is 120, but the
code clamps the skill score itself to 100 (`min(100, ...)`,
matcher.py line 240). -/
theorem skill_cap_counterexample :
    skillScoreClaim (extract_skills emptyMatcher "sql excel tableau power bi python statistics git") = 120 ∧
    skillScore (extract_skills emptyMatcher "sql excel tableau power bi python statistics git") = 100 ∧
    skillScore (extract_skills emptyMatcher "sql excel tableau power bi python statistics git") ≠
      skillScoreClaim (extract_skills emptyMatcher "sql excel tableau power bi python statistics git") := by
  refine ⟨by decide, by decide, by decide⟩

/-- C4 amended: the skill score is `min 100` of the step value plus the
group bonus of 5 for every skill group with at least one matched member —
i.e. the sum IS clamped to 100 before the weighted total is computed. -/
theorem skill_score_is_capped (found_skills : List String) :
    skillScore found_skills = min 100 (skillScoreClaim found_skills) := by
  unfold skillScore skillScoreClaim groupBonus
  rw [foldl_bonus_eq_countP]
  simp

/-- C9: enlarging the found-skill set by one element (set insertion) never
decreases the skill score: the step function is monotone in the count, the
group bonus is monotone in the set, and the cap at 100 preserves both. -/
theorem skill_score_monotone (found_skills : List String) (x : String) :
    skillScore found_skills ≤ skillScore (found_skills.insert x) := by
  unfold skillScore
  have hlen : found_skills.length ≤ (found_skills.insert x).length := by
    by_cases hx : x ∈ found_skills
    · rw [List.insert_of_mem hx]
    · rw [List.insert_of_not_mem hx]; simp
  have hstep := stepScore_mono hlen
  have hbonus : groupBonus found_skills ≤ groupBonus (found_skills.insert x) := by
    refine groupBonus_mono _ _ ?_
    intro s hs
    have hmem : s ∈ found_skills := List.elem_iff.mp hs
    exact List.elem_iff.mpr (List.mem_insert_iff.mpr (Or.inr hmem))
  exact min_le_min (Nat.le_refl 100) (by omega)

/-- C8 counterexample: on the title "MIS Analyst Reporting" with empty
description and an empty profile with default thresholds, the code does
NOT return a skill score of 50, a total in the 60s and decision review:
the synonym table matches "r" (inside "reporting"), "reporting" and the
group "core_data", so the skill score is 80, the total is 90 and the
decision is auto_apply. -/
theorem mis_analyst_counterexample :
    calculate_score emptyMatcher "MIS Analyst Reporting" "" =
      (90, ["core_data", "reporting", "r"], "auto_apply", none) ∧
    (calculate_score emptyMatcher "MIS Analyst Reporting" "").2.2.1 ≠ "review" ∧
    ¬ ((calculate_score emptyMatcher "MIS Analyst Reporting" "").1 < 70) := by
  refine ⟨by decide, by decide, by decide⟩

/-- C1: whenever some configured exclusion keyword occurs in the
lower-cased concatenation of title and description, `calculate_score`
returns score 0, an empty matched-skill list and decision "exclude",
regardless of the rest of the text. -/
theorem exclusion_short_circuits (m : JobMatcher) (t d : String)
    (h : m.exclusions.any (fun keyword => pyIn keyword (lower (t ++ " " ++ d))) = true) :
    (calculate_score m t d).1 = 0 ∧ (calculate_score m t d).2.1 = [] ∧
    (calculate_score m t d).2.2.1 = "exclude" := by
  have hex : (should_exclude m t d).1 = true := by
    unfold should_exclude
    rcases List.any_eq_true.mp h with ⟨k, hk, hpk⟩
    cases hfind : m.exclusions.find? (fun keyword => pyIn keyword (lower (t ++ " " ++ d))) with
    | some k2 => simp [hfind]
    | none => exact absurd hpk (by simpa using List.find?_eq_none.mp hfind k hk)
  refine ⟨?_, ?_, ?_⟩ <;> simp [calculate_score, hex]

/-- C1 witness: a profile targeting "data analyst" but excluding
"customer service", on a title containing both. -/
theorem exclusion_short_circuits_witness :
    (calculate_score exclusionMatcher "Customer Service Data Analyst" "").1 = 0 ∧
    (calculate_score exclusionMatcher "Customer Service Data Analyst" "").2.1 = [] ∧
    (calculate_score exclusionMatcher "Customer Service Data Analyst" "").2.2.1 = "exclude" :=
  exclusion_short_circuits exclusionMatcher "Customer Service Data Analyst" "" (by decide)

/-- C2: for a valid threshold pair (review ≤ auto) the routing function
returns exactly one of auto_apply / review / skip, characterized by the
two thresholds with no gap or overlap, and on a matcher with unconfigured
thresholds every non-excluded evaluation is routed by the defaults
auto=70, review=60 against the returned score. -/
theorem routing_threshold_partition (auto review : Int) (total : Nat)
    (h : review ≤ auto) :
    (recommendation auto review total = "auto_apply" ∨
     recommendation auto review total = "review" ∨
     recommendation auto review total = "skip") ∧
    (recommendation auto review total = "auto_apply" ↔ auto ≤ (total : Int)) ∧
    (recommendation auto review total = "review" ↔
       review ≤ (total : Int) ∧ (total : Int) < auto) ∧
    (recommendation auto review total = "skip" ↔ (total : Int) < review) ∧
    (∀ (m : JobMatcher) (t d : String),
       (calculate_score m t d).2.2.1 = "exclude" ∨
       (calculate_score m t d).2.2.1 =
         recommendation (m.thresholds_auto.getD 70) (m.thresholds_review.getD 60)
           (calculate_score m t d).1) := by
  refine ⟨?_, ?_, ?_, ?_, ?_⟩
  · unfold recommendation; split_ifs <;> simp
  · unfold recommendation; split_ifs <;> simp <;> omega
  · unfold recommendation; split_ifs <;> simp <;> omega
  · unfold recommendation; split_ifs <;> simp <;> omega
  · intro m t d
    by_cases hex : (should_exclude m t d).1 = true
    · left; simp [calculate_score, hex]
    · right; simp [calculate_score, hex]

/-- C2 witness: with the default thresholds 70/60, a total of 65 is
routed to review. -/
theorem routing_threshold_partition_witness : recommendation 70 60 65 = "review" :=
  ((routing_threshold_partition 70 60 65 (by decide)).2.2.1).mpr (by decide)

/-- C3: the score returned by `calculate_score` is always between 0 and
100 inclusive. -/
theorem score_bounded (m : JobMatcher) (t d : String) :
    0 ≤ (calculate_score m t d).1 ∧ (calculate_score m t d).1 ≤ 100 := by
  refine ⟨Nat.zero_le _, ?_⟩
  by_cases hex : (should_exclude m t d).1 = true
  · simp [calculate_score, hex]
  · have h1 := titleScore_le_100 m (lower t)
    have h2 := skillScore_le_100 (extract_skills m (lower t ++ " " ++ lower d))
    have h3 : weightedTotal (titleScore m (lower t))
        (skillScore (extract_skills m (lower t ++ " " ++ lower d))) ≤ 100 := by
      unfold weightedTotal; omega
    simp only [calculate_score, hex, Bool.false_eq_true, if_false]
    split_ifs <;> omega

/-- C5 counterexample: construction from a configuration whose thresholds
are inverted (auto=10 below review=90) does not fail: the matcher is built
with the nonsensical thresholds stored as-is, and scoring silently
proceeds — the empty posting scores 25 and is routed to auto_apply because
25 ≥ 10. -/
theorem construction_accepts_bad_thresholds :
    (mkJobMatcher badConfig).thresholds_auto = some 10 ∧
    (mkJobMatcher badConfig).thresholds_review = some 90 ∧
    calculate_score (mkJobMatcher badConfig) "" "" = (25, [], "auto_apply", none) := by
  refine ⟨by decide, by decide, by decide⟩

/-- C5 amended: construction performs no validation at all — every parsed
configuration (including out-of-range or inverted thresholds) yields a
matcher carrying the configuration's thresholds unchanged, and scoring on
that matcher is total, always producing one of the four decisions. -/
theorem construction_is_total_without_validation (cfg : Config) :
    (mkJobMatcher cfg).thresholds_auto = cfg.matching_auto ∧
    (mkJobMatcher cfg).thresholds_review = cfg.matching_review ∧
    ∀ t d, (calculate_score (mkJobMatcher cfg) t d).2.2.1 = "exclude" ∨
      (calculate_score (mkJobMatcher cfg) t d).2.2.1 = "auto_apply" ∨
      (calculate_score (mkJobMatcher cfg) t d).2.2.1 = "review" ∨
      (calculate_score (mkJobMatcher cfg) t d).2.2.1 = "skip" := by
  refine ⟨rfl, rfl, ?_⟩
  intro t d
  by_cases hex : (should_exclude (mkJobMatcher cfg) t d).1 = true
  · left; simp [calculate_score, hex]
  · right
    have hdec : (calculate_score (mkJobMatcher cfg) t d).2.2.1 =
        recommendation ((mkJobMatcher cfg).thresholds_auto.getD 70)
          ((mkJobMatcher cfg).thresholds_review.getD 60)
          (calculate_score (mkJobMatcher cfg) t d).1 := by
      simp [calculate_score, hex]
    rw [hdec]
    unfold recommendation
    split_ifs <;> simp

/-- C7: the weighted total `int(title_score * 0.5 + skill_score * 0.5)` is
truncation toward zero of the exact value (the float arithmetic is exact
for these magnitudes), which for non-negative integers coincides with the
floor of (title + skill)/2, so an odd sum drops the half. -/
theorem weighted_total_is_truncation (t s : Nat) :
    pyIntTrunc ((t : ℚ) * (1/2) + (s : ℚ) * (1/2)) = (weightedTotal t s : Int) ∧
    pyIntTrunc ((t : ℚ) * (1/2) + (s : ℚ) * (1/2)) =
      ⌊(t : ℚ) * (1/2) + (s : ℚ) * (1/2)⌋ ∧
    2 * weightedTotal t s + (t + s) % 2 = t + s := by
  have harg : (t : ℚ) * (1/2) + (s : ℚ) * (1/2) = ((t + s : Nat) : ℚ) / ((2 : Nat) : ℚ) := by
    push_cast; ring
  have h0 : 0 ≤ (t : ℚ) * (1/2) + (s : ℚ) * (1/2) := by positivity
  have htr : pyIntTrunc ((t : ℚ) * (1/2) + (s : ℚ) * (1/2)) =
      ⌊(t : ℚ) * (1/2) + (s : ℚ) * (1/2)⌋ := by
    unfold pyIntTrunc
    rw [Int.tdiv_eq_ediv (Rat.num_nonneg.mpr h0) (Int.natCast_nonneg _)]
    exact Rat.floor_def.symm
  have hfl : ⌊(t : ℚ) * (1/2) + (s : ℚ) * (1/2)⌋ = ((t + s) / 2 : Nat) := by
    rw [harg, Rat.floor_natCast_div_natCast]
    omega
  refine ⟨?_, htr, ?_⟩
  · rw [htr, hfl]; unfold weightedTotal; norm_cast
  · unfold weightedTotal; omega

/-- C10: a non-excluded evaluation always scores at least 25 (skill score
floored at 50, title at least 0, weighted mean at least 25, bonuses only
add), so a review threshold of at most 25 makes the skip outcome
unreachable. -/
theorem nonexcluded_score_floor (m : JobMatcher) (t d : String)
    (h : (calculate_score m t d).2.2.1 ≠ "exclude") :
    25 ≤ (calculate_score m t d).1 ∧
    (m.thresholds_review.getD 60 ≤ 25 → (calculate_score m t d).2.2.1 ≠ "skip") := by
  have hex : ¬ ((should_exclude m t d).1 = true) := by
    intro hx
    exact h (by simp [calculate_score, hx])
  have h2 := le_skillScore (extract_skills m (lower t ++ " " ++ lower d))
  have h3 : 25 ≤ weightedTotal (titleScore m (lower t))
      (skillScore (extract_skills m (lower t ++ " " ++ lower d))) := by
    unfold weightedTotal; omega
  have hfloor : 25 ≤ (calculate_score m t d).1 := by
    simp only [calculate_score, hex, Bool.false_eq_true, if_false]
    split_ifs <;> omega
  refine ⟨hfloor, ?_⟩
  intro hrev
  have hdec : (calculate_score m t d).2.2.1 =
      recommendation (m.thresholds_auto.getD 70) (m.thresholds_review.getD 60)
        (calculate_score m t d).1 := by
    simp [calculate_score, hex]
  rw [hdec]
  unfold recommendation
  split_ifs with ha hr
  · decide
  · decide
  · exact absurd (by omega : m.thresholds_review.getD 60 ≤ ((calculate_score m t d).1 : Int)) hr

/-- C10 witness: with review threshold 20 the empty posting (score 25,
not excluded) is not skipped. -/
theorem nonexcluded_score_floor_witness :
    25 ≤ (calculate_score (mkJobMatcher
      { skills := [], target_roles := [], exclusion_keywords := [],
        matching_auto := none, matching_review := some 20 }) "" "").1 ∧
    (calculate_score (mkJobMatcher
      { skills := [], target_roles := [], exclusion_keywords := [],
        matching_auto := none, matching_review := some 20 }) "" "").2.2.1 ≠ "skip" := by
  have h := nonexcluded_score_floor (mkJobMatcher
    { skills := [], target_roles := [], exclusion_keywords := [],
      matching_auto := none, matching_review := some 20 }) "" "" (by decide)
  exact ⟨h.1, h.2 (by decide)⟩

/-- C8 amended: on the title "MIS Analyst Reporting" with no description,
under an empty profile and default thresholds, the title score is 100 (95
base from "mis analyst" raised by the analyst bonus), the skill score is
80 (matched set {"core_data", "reporting", "r"}, step 75 plus the
core_data group bonus 5), the total is 90 and the decision is auto_apply. -/
theorem mis_analyst_scenario :
    titleScore emptyMatcher (lower "MIS Analyst Reporting") = 100 ∧
    skillScore (extract_skills emptyMatcher (lower "MIS Analyst Reporting" ++ " " ++ lower "")) = 80 ∧
    calculate_score emptyMatcher "MIS Analyst Reporting" "" =
      (90, ["core_data", "reporting", "r"], "auto_apply", none) := by
  refine ⟨by decide, by decide, by decide⟩

end JobAutomation
